import Mathlib

/-
Verification development for the frame-delivery and timing pipeline of
AkVCam::Stream (src/libAvKys/Plugins/VirtualCamera/src/cmio/VirtualCamera/src/stream.cpp).

Shallow embedding conventions:
  - CMTime is modelled as Option Rat: none is an invalid CMTime (flags without
    kCMTimeFlags_Valid, as produced by the memset in Stream::start), some q is a
    valid time worth q seconds.  CMTimeGetSeconds of an invalid time (NaN in
    CoreMedia) is modelled as 0; in sendFrame that value is only compared after
    the CMTIME_IS_INVALID disjunct already decided the branch, so the model and
    the C code take the same branch in every case.
  - The host clock read UInt64(CFAbsoluteTimeGetCurrent()) is a natural number
    input to each tick; CVPixelBufferCreate success is a boolean input.
  - Externally visible actions of one tick (clock timing post, pixel-buffer
    allocation attempt, queue insertion, queue-altered consumer callback) are
    recorded in an event trace, in the order the code performs them.
-/

namespace AkVCam

/-- Scaling mode (ScalingFast is the constructor default in stream.cpp). -/
inductive Scaling where
  | fast
  | linear
deriving DecidableEq

/-- Aspect-ratio policy (AspectRatioIgnore is the constructor default). -/
inductive AspectRatio where
  | ignore
  | keep
deriving DecidableEq

/-- Video format: FourCC code, dimensions and frame-rate list, as used by
stream.cpp (fourcc(), width(), height(), frameRates()). -/
structure VideoFormat where
  fourcc : Nat
  width : Nat
  height : Nat
  frameRates : List ℚ
deriving DecidableEq

/-- Modelled from the spec: the VideoFrame transform operations (mirror, scaled,
convert) live in VCamUtils/src/image/videoframe, which is not part of the
source under verification; they are modelled as free constructors that record
which operation was applied with which arguments, so that the order of
composition performed by stream.cpp is visible in the term.  raw stands for an
untransformed frame (producer frame or the embedded test image); empty is the
result of VideoFrame::clear(). -/
inductive VideoFrame where
  | raw (id : Nat) (fmt : VideoFormat)
  | empty
  | mirror (f : VideoFrame) (horizontal vertical : Bool)
  | scaled (f : VideoFrame) (width height : Nat) (sc : Scaling) (ar : AspectRatio)
  | convert (f : VideoFrame) (fourcc : Nat)
deriving DecidableEq

/-- Modelled from the spec: VideoFrame::format() — scaling retargets the
dimensions, conversion retargets the FourCC, mirroring keeps the format. -/
def VideoFrame.format : VideoFrame → VideoFormat
  | VideoFrame.raw _ fmt => fmt
  | VideoFrame.empty => { fourcc := 0, width := 0, height := 0, frameRates := [] }
  | VideoFrame.mirror f _ _ => f.format
  | VideoFrame.scaled f w h _ _ => { f.format with width := w, height := h }
  | VideoFrame.convert f cc => { f.format with fourcc := cc }

/-- CMTime modelled by its value in seconds; none is an invalid time. -/
abbrev CMTime : Type := Option ℚ

/-- Truncation of a rational toward zero, as the C double-to-integer
conversion applied to m_fps by CMTimeMake(1, m_fps). -/
def truncToInt (q : ℚ) : ℤ := q.num / q.den

/-- CMTimeMake(value, timescale): valid for a positive timescale. -/
def cmTimeMake (value : ℤ) (timescale : ℤ) : CMTime :=
  if 0 < timescale then some ((value : ℚ) / (timescale : ℚ)) else none

/-- CMTimeAdd: invalid if either side is invalid. -/
def cmTimeAdd : CMTime → CMTime → CMTime
  | some a, some b => some (a + b)
  | _, _ => none

/-- CMTimeSubtract: invalid if either side is invalid. -/
def cmTimeSub : CMTime → CMTime → CMTime
  | some a, some b => some (a - b)
  | _, _ => none

/-- CMTimeGetSeconds; an invalid time yields NaN in CoreMedia, modelled as 0
(sendFrame only consults the value behind the CMTIME_IS_INVALID disjunct,
where NaN and 0 drive the same branch: both comparisons are false). -/
def cmTimeGetSeconds : CMTime → ℚ
  | some a => a
  | none => 0

/-- One sample buffer as packaged by CMIOSampleBufferCreateForImageBuffer in
sendFrame: sequence number, presentation time, duration, discontinuity flag and
the image-buffer geometry taken from the frame's format. -/
structure SampleBuffer where
  sequence : Nat
  pts : CMTime
  duration : CMTime
  discontinuity : Bool
  fourcc : Nat
  width : Nat
  height : Nat
deriving DecidableEq

/-- Externally visible actions of one sendFrame call, in program order. -/
inductive Event where
  | postTiming (pts : CMTime) (hostTime : Nat) (resync : Bool)
  | allocAttempt (width height : Nat) (fourcc : Nat)
  | enqueue (buf : SampleBuffer)
  | queueAltered (buf : SampleBuffer)
deriving DecidableEq

/-- State of one AkVCam::Stream (the StreamPrivate fields the pipeline uses).
The sample-buffer queue is kept as the list of entries inserted so far —
stream.cpp itself never dequeues (the host drains the CMSimpleQueue), and the
queue is compared against its fixed capacity (30 in the constructor). -/
structure StreamState where
  sequence : Nat
  pts : CMTime
  queue : List SampleBuffer
  queueCapacity : Nat
  fps : ℚ
  fmt : VideoFormat
  currentFrame : VideoFrame
  testFrame : VideoFrame
  testFrameAdapted : VideoFrame
  timerInterval : Option ℚ
  running : Bool
  broadcasting : Bool
  horizontalMirror : Bool
  verticalMirror : Bool
  scaling : Scaling
  aspect : AspectRatio
  hasQueueAltered : Bool
deriving DecidableEq

/-- Modelled from the spec: SampleBufferQueue::fullness() (VCamUtils, not in
the source under verification) is occupancy divided by capacity, in [0, 1]. -/
def fullness (s : StreamState) : ℚ :=
  (s.queue.length : ℚ) / (s.queueCapacity : ℚ)

/-- The candidate pts of one tick: CMTimeMake(UInt64(CFAbsoluteTimeGetCurrent()), 1e9). -/
def candidatePts (hostTime : Nat) : CMTime :=
  cmTimeMake (hostTime : ℤ) 1000000000

/-- The drift threshold 2. / m_fps used by sendFrame. -/
def driftThreshold (s : StreamState) : ℚ := 2 / s.fps

/-- The sample duration CMTimeMake(1, m_fps); the double m_fps is truncated to
an integer timescale by the implicit conversion. -/
def frameDuration (s : StreamState) : CMTime :=
  cmTimeMake 1 (truncToInt s.fps)

/-- The resync condition of sendFrame:
CMTIME_IS_INVALID(m_pts) || ptsDiff < 0 || ptsDiff > 2. / m_fps, where
ptsDiff = CMTimeGetSeconds(CMTimeSubtract(m_pts, pts)) — note the operand
order: the stored pts minus the candidate. -/
def resyncNeeded (s : StreamState) (hostTime : Nat) : Bool :=
  decide (s.pts = none)
  || decide (cmTimeGetSeconds (cmTimeSub s.pts (candidatePts hostTime)) < 0)
  || decide (cmTimeGetSeconds (cmTimeSub s.pts (candidatePts hostTime)) > driftThreshold s)

/-- StreamPrivate::sendFrame.  Branches in program order: the fullness guard,
the duplicate-pts skip, the drift check (mutating m_pts on resync), the clock
timing post, the pixel-buffer allocation (allocOk input), the sample packaging
and insertion, the m_pts/m_sequence advance, and the queue-altered callback. -/
def sendFrame (s : StreamState) (frame : VideoFrame) (hostTime : Nat)
    (allocOk : Bool) : StreamState × List Event :=
  if 1 ≤ fullness s then (s, [])
  else
    let pts := candidatePts hostTime
    if pts = s.pts then (s, [])
    else
      let resync := resyncNeeded s hostTime
      let mpts := if resync then pts else s.pts
      let s1 := { s with pts := mpts }
      let ev1 := Event.postTiming mpts hostTime resync
      if allocOk = false then
        (s1, [ev1, Event.allocAttempt frame.format.width frame.format.height
                     frame.format.fourcc])
      else
        let buf : SampleBuffer :=
          { sequence := s.sequence
            pts := mpts
            duration := frameDuration s
            discontinuity := resync
            fourcc := frame.format.fourcc
            width := frame.format.width
            height := frame.format.height }
        ({ s1 with
             pts := cmTimeAdd mpts (frameDuration s),
             sequence := s.sequence + 1,
             queue := s.queue ++ [buf] },
         [ev1,
          Event.allocAttempt frame.format.width frame.format.height
            frame.format.fourcc,
          Event.enqueue buf]
         ++ (if s.hasQueueAltered then [Event.queueAltered buf] else []))

/-- StreamPrivate::streamLoop: a timer tick is ignored unless m_running, and
otherwise calls sendFrame on m_currentFrame under the mutex. -/
def tick (s : StreamState) (hostTime : Nat) (allocOk : Bool) :
    StreamState × List Event :=
  if s.running then sendFrame s s.currentFrame hostTime allocOk else (s, [])

/-- A run of the periodic driver: fold tick over a list of
(hostTime, allocation outcome) inputs. -/
def runTicks (s : StreamState) : List (Nat × Bool) → StreamState
  | [] => s
  | (h, a) :: rest => runTicks (tick s h a).1 rest

/-- The transform composition stream.cpp applies (frameReady and
updateTestFrame): mirror, then scaled to the format's dimensions, then
convert to the format's FourCC. -/
def transformFrame (frame : VideoFrame) (hm vm : Bool) (fmt : VideoFormat)
    (sc : Scaling) (ar : AspectRatio) : VideoFrame :=
  ((frame.mirror hm vm).scaled fmt.width fmt.height sc ar).convert fmt.fourcc

/-- StreamPrivate::updateTestFrame. -/
def updateTestFrame (s : StreamState) : StreamState :=
  { s with testFrameAdapted :=
      (transformFrame s.testFrame s.horizontalMirror s.verticalMirror
        s.fmt s.scaling s.aspect) }

/-- Stream::setFrameRate (the property-table write is external bookkeeping). -/
def setFrameRate (s : StreamState) (r : ℚ) : StreamState :=
  { s with fps := r }

/-- Stream::setFormat: adopts the first listed frame rate if any, then stores
the format.  It does not touch m_testFrameAdapted. -/
def setFormat (s : StreamState) (format : VideoFormat) : StreamState :=
  let s1 :=
    match format.frameRates with
    | [] => s
    | r :: _ => setFrameRate s r
  { s1 with fmt := format }

/-- Stream::setMirror: early return when unchanged, else store and
updateTestFrame. -/
def setMirror (s : StreamState) (hm vm : Bool) : StreamState :=
  if s.horizontalMirror = hm ∧ s.verticalMirror = vm then s
  else updateTestFrame { s with horizontalMirror := hm, verticalMirror := vm }

/-- Stream::setScaling. -/
def setScaling (s : StreamState) (sc : Scaling) : StreamState :=
  if s.scaling = sc then s
  else updateTestFrame { s with scaling := sc }

/-- Stream::setAspectRatio. -/
def setAspectRatio (s : StreamState) (ar : AspectRatio) : StreamState :=
  if s.aspect = ar then s
  else updateTestFrame { s with aspect := ar }

/-- Stream::setBroadcasting: on a change, store the flag and, when turning
broadcasting off, replace the current frame with the adapted test frame. -/
def setBroadcasting (s : StreamState) (b : Bool) : StreamState :=
  if s.broadcasting = b then s
  else
    let s1 := { s with broadcasting := b }
    if b then s1 else { s1 with currentFrame := s1.testFrameAdapted }

/-- Stream::frameReady: no-op unless running; under the mutex, when
broadcasting, store the submitted frame mirrored, scaled, then converted. -/
def frameReady (s : StreamState) (frame : VideoFrame) : StreamState :=
  if s.running = false then s
  else if s.broadcasting then
    { s with currentFrame :=
        (transformFrame frame s.horizontalMirror s.verticalMirror
          s.fmt s.scaling s.aspect) }
  else s

/-- StreamPrivate::startTimer: fails if a timer exists, else installs a
periodic timer with interval 1.0 / m_fps (timer creation by the host run loop
is modelled as succeeding). -/
def startTimer (s : StreamState) : StreamState × Bool :=
  if s.timerInterval.isSome then (s, false)
  else ({ s with timerInterval := some (1 / s.fps) }, true)

/-- Stream::start: fail when already running; else adapt the test frame, seed
the current frame with it, reset the sequence to 0 and the pts to the
invalid time (the memset), and run the timer. -/
def start (s : StreamState) : StreamState × Bool :=
  if s.running then (s, false)
  else
    let s1 := updateTestFrame s
    let s2 := { s1 with
                  currentFrame := s1.testFrameAdapted,
                  sequence := 0,
                  pts := (none : CMTime) }
    let s3 := startTimer s2
    ({ s3.1 with running := s3.2 }, s3.2)

/-- Stream::stop: no-op when stopped; else clear the running flag, cancel the
timer and clear the cached frames. -/
def stop (s : StreamState) : StreamState :=
  if s.running = false then s
  else
    let s1 := { s with running := false }
    let s2 := if s1.timerInterval.isSome
                then { s1 with timerInterval := none } else s1
    { s2 with currentFrame := VideoFrame.empty,
              testFrameAdapted := VideoFrame.empty }

/-- The sample buffer inserted by a trace, if any. -/
def emittedBuffer (evs : List Event) : Option SampleBuffer :=
  evs.findSome? fun e =>
    match e with
    | Event.enqueue b => some b
    | _ => none

/-- Whether an event delivers anything to the consumer side (an insertion into
the sample queue or the queue-altered callback). -/
def isEmissionEvent : Event → Bool
  | Event.enqueue _ => true
  | Event.queueAltered _ => true
  | _ => false

/-- The queue invariant maintained by the pipeline: entries carry strictly
increasing sequence numbers, all below the stream's sequence counter. -/
def queueSeqOrdered (s : StreamState) : Prop :=
  List.Chain' (fun a b : SampleBuffer => a.sequence < b.sequence) s.queue
  ∧ ∀ b ∈ s.queue, b.sequence < s.sequence

/-- A video format used by the concrete stream states below. -/
def sampleFmt : VideoFormat :=
  { fourcc := 1, width := 4, height := 4, frameRates := [30] }

/-- A freshly started stream (as left by Stream::start with fps 10): invalid
pts, sequence 0, empty queue of capacity 30, running. -/
def baseState : StreamState :=
  { sequence := 0, pts := none, queue := [], queueCapacity := 30,
    fps := 10, fmt := sampleFmt,
    currentFrame := VideoFrame.raw 0 sampleFmt,
    testFrame := VideoFrame.raw 1 sampleFmt,
    testFrameAdapted := VideoFrame.empty,
    timerInterval := some (1 / 10), running := true, broadcasting := false,
    horizontalMirror := false, verticalMirror := false,
    scaling := Scaling.fast, aspect := AspectRatio.ignore,
    hasQueueAltered := false }

/-- A stream whose stored pts equals the candidate pts of host time 10^9. -/
def skipState : StreamState := { baseState with pts := some 1 }

/-- A placeholder sample buffer used to fill the queue of fullState. -/
def dummyBuf : SampleBuffer :=
  { sequence := 0, pts := some 0, duration := some (1 / 10),
    discontinuity := false, fourcc := 1, width := 4, height := 4 }

/-- A stream whose 30-entry queue is at capacity (fullness 1). -/
def fullState : StreamState :=
  { baseState with queue := List.replicate 30 dummyBuf }

/-- Claim C5: for every tick where the candidate pts computed from the host
time equals the stored last pts exactly, sendFrame returns before mutating
anything: no entry is enqueued, no consumer callback runs, and the sequence
counter and the last pts are unchanged (the whole state and the event trace
are those of a tick that never fired). -/
theorem claimC5_duplicate_pts_skip (s : StreamState) (h : Nat) (a : Bool)
    (hp : candidatePts h = s.pts) : tick s h a = (s, []) := by
  simp only [tick, sendFrame]
  split_ifs <;> simp_all

/-- Witness for claim C5 at a concrete stream state and host time. -/
theorem claimC5_witness : tick skipState 1000000000 true = (skipState, []) :=
  claimC5_duplicate_pts_skip skipState 1000000000 true
    (by norm_num [candidatePts, cmTimeMake, skipState, baseState])

/-- Claim C6: a tick that fires while the queue fullness is at least 1 is
rejected by the very first check of sendFrame: the event trace is empty (no
clock timing post, no pixel-buffer allocation attempt, no queue insertion, no
queue-altered callback), and the state — sequence counter, last pts and queue
contents included — is exactly the pre-tick state. -/
theorem claimC6_full_queue_drops (s : StreamState) (h : Nat) (a : Bool)
    (hfull : 1 ≤ fullness s) : tick s h a = (s, []) := by
  simp only [tick, sendFrame]
  split_ifs <;> simp_all

/-- Witness for claim C6 at a concrete full queue. -/
theorem claimC6_witness : tick fullState 1000000000 true = (fullState, []) :=
  claimC6_full_queue_drops fullState 1000000000 true
    (by norm_num [fullness, fullState, baseState])

/-- Claim C7, amended: when the pixel-buffer allocation fails, the tick
enqueues nothing and invokes no consumer callback, and the sequence counter
and the queue are untouched; the stored pts, however, is not always the
pre-tick value — if the tick's drift check fired, the pts was already resynced
to the candidate (and the clock timing event already posted) before the
allocation was attempted. -/
theorem claimC7_amended (s : StreamState) (h : Nat) :
    ((tick s h false).2.all fun e => !isEmissionEvent e) = true
    ∧ (tick s h false).1.sequence = s.sequence
    ∧ (tick s h false).1.queue = s.queue
    ∧ ((tick s h false).1.pts = s.pts
        ∨ (tick s h false).1.pts = candidatePts h) := by
  simp only [tick, sendFrame]
  split_ifs <;> simp_all [isEmissionEvent]

/-- Counterexample to claim C7 as stated: on a freshly started stream, a tick
whose allocation fails enqueues nothing, yet the stored pts is no longer the
pre-tick value — the drift branch had already resynced it to the candidate —
so the observable stream state is not the same as if the tick had not fired. -/
theorem claimC7_counterexample :
    emittedBuffer (tick baseState 1000000000 false).2 = none
    ∧ (tick baseState 1000000000 false).1.pts = candidatePts 1000000000
    ∧ (tick baseState 1000000000 false).1.pts ≠ baseState.pts := by
  refine ⟨?_, ?_, ?_⟩ <;>
    norm_num [tick, sendFrame, baseState, fullness, candidatePts, cmTimeMake,
      resyncNeeded, cmTimeGetSeconds, cmTimeSub, emittedBuffer] <;>
    simp

/-- Claim C8: frameReady is the identity while the stream is stopped and
while broadcasting is off; while running with broadcasting on it stores into
the current-frame slot the submitted frame mirrored first, then scaled to the
active format's dimensions under the configured scaling mode and aspect
policy, then converted to the active format's FourCC last. -/
theorem claimC8_frameReady_pipeline (s : StreamState) (frame : VideoFrame) :
    frameReady s frame =
      if s.running = true ∧ s.broadcasting = true then
        { s with currentFrame :=
            (((frame.mirror s.horizontalMirror s.verticalMirror).scaled
                s.fmt.width s.fmt.height s.scaling s.aspect).convert
              s.fmt.fourcc) }
      else s := by
  cases hr : s.running <;> cases hb : s.broadcasting <;>
    simp [frameReady, transformFrame, hr, hb]

/-- Claim C10: setFrameRate only stores the new fps — the installed periodic
timer keeps its interval — while the next tick's sample duration
(CMTimeMake(1, m_fps)) and drift threshold (2 / m_fps) are derived from the
newly stored fps; start computes the timer interval 1 / m_fps once, from the
fps current at start time, and only stop removes the timer so that a later
start can install a new interval. -/
theorem claimC10_fixed_timer_interval (s : StreamState) (r : ℚ) :
    (setFrameRate s r).fps = r
    ∧ (setFrameRate s r).timerInterval = s.timerInterval
    ∧ (setFrameRate s r).running = s.running
    ∧ frameDuration (setFrameRate s r) = cmTimeMake 1 (truncToInt r)
    ∧ driftThreshold (setFrameRate s r) = 2 / r
    ∧ (start s).1.timerInterval =
        (if s.running = true then s.timerInterval
         else if s.timerInterval = none then some (1 / s.fps)
         else s.timerInterval)
    ∧ (stop s).timerInterval = (if s.running = true then none
                                else s.timerInterval) := by
  refine ⟨rfl, rfl, rfl, rfl, rfl, ?_, ?_⟩
  · cases hr : s.running
    · cases ho : s.timerInterval <;>
        simp [start, startTimer, updateTestFrame, hr, ho]
    · simp [start, hr]
  · cases hr : s.running <;> cases ho : s.timerInterval <;>
      simp [stop, hr, ho]

/-- A running stream whose stored pts is slightly more than one frame
duration ahead of the candidate pts of host time 1. -/
def c1State : StreamState :=
  { baseState with pts := some (1 / 10 + 1 / 1000000000) }

/-- A running stream whose stored pts is one frame duration ahead of the
candidate pts of host time 1. -/
def c2State : StreamState := { baseState with pts := some (1 / 10) }

/-- Counterexample to claim C1 as stated: here the stored last pts is valid
and the difference candidate minus last is negative (minus one frame
duration), so the claim requires a resync emission at the candidate pts; the
code instead computes the difference as last minus candidate, finds it inside
[0, 2/fps], and emits the stored pts with no discontinuity flag. -/
theorem claimC1_counterexample :
    cmTimeGetSeconds (cmTimeSub (candidatePts 1) c1State.pts) < 0
    ∧ c1State.pts ≠ none
    ∧ (emittedBuffer (tick c1State 1 true).2).map
        (fun b => (b.pts, b.discontinuity)) = some (c1State.pts, false) := by
  refine ⟨?_, ?_, ?_⟩ <;>
    norm_num [tick, sendFrame, c1State, baseState, fullness, candidatePts,
      cmTimeMake, resyncNeeded, cmTimeGetSeconds, cmTimeSub, driftThreshold,
      emittedBuffer] <;>
    simp

/-- Claim C1, amended: the drift test of sendFrame subtracts in the other
direction — if the stored last pts is invalid, or the difference of the last
pts minus the candidate pts is negative, or that difference exceeds 2 / fps,
then a non-skipped tick with a successful allocation emits an entry whose pts
is the candidate value and whose discontinuity flag is set. -/
theorem claimC1_amended (s : StreamState) (h : Nat)
    (hrun : s.running = true)
    (hfull : ¬ 1 ≤ fullness s)
    (hskip : candidatePts h ≠ s.pts)
    (hdrift : resyncNeeded s h = true) :
    (emittedBuffer (tick s h true).2).map (fun b => (b.pts, b.discontinuity))
      = some (candidatePts h, true) := by
  simp [tick, sendFrame, emittedBuffer, hrun, hfull, hskip, hdrift]

/-- Witness for the amended claim C1: the first tick of a freshly started
stream (invalid stored pts) emits the candidate pts with the flag set. -/
theorem claimC1_witness :
    (emittedBuffer (tick baseState 1000000000 true).2).map
        (fun b => (b.pts, b.discontinuity))
      = some (candidatePts 1000000000, true) :=
  claimC1_amended baseState 1000000000 rfl
    (by norm_num [fullness, baseState])
    (by simp [candidatePts, cmTimeMake, baseState])
    (by simp [resyncNeeded, baseState])

/-- Counterexample to claim C2 as stated: a non-skipped, non-resync tick
emits the stored last pts itself, not the stored last pts plus one frame
duration. -/
theorem claimC2_counterexample :
    resyncNeeded c2State 1 = false
    ∧ candidatePts 1 ≠ c2State.pts
    ∧ (emittedBuffer (tick c2State 1 true).2).map (fun b => b.pts)
        = some c2State.pts
    ∧ cmTimeAdd c2State.pts (frameDuration c2State) = some (1 / 5)
    ∧ ¬ (emittedBuffer (tick c2State 1 true).2).map (fun b => b.pts)
          = some (cmTimeAdd c2State.pts (frameDuration c2State)) := by
  refine ⟨?_, ?_, ?_, ?_, ?_⟩ <;>
    norm_num [tick, sendFrame, c2State, baseState, fullness, candidatePts,
      cmTimeMake, resyncNeeded, cmTimeGetSeconds, cmTimeSub, driftThreshold,
      cmTimeAdd, frameDuration, truncToInt, emittedBuffer] <;>
    simp

/-- Claim C2, amended: a tick that is neither skipped nor a resync emits the
stored last pts exactly, independent of the current host time and with no
discontinuity flag, and the store is then advanced by exactly one frame
duration — so consecutive steady-state emissions are one frame duration
apart, decoupled from timer jitter. -/
theorem claimC2_amended (s : StreamState) (h : Nat)
    (hrun : s.running = true)
    (hfull : ¬ 1 ≤ fullness s)
    (hskip : candidatePts h ≠ s.pts)
    (hnod : resyncNeeded s h = false) :
    (emittedBuffer (tick s h true).2).map (fun b => (b.pts, b.discontinuity))
      = some (s.pts, false)
    ∧ (tick s h true).1.pts = cmTimeAdd s.pts (frameDuration s) := by
  simp [tick, sendFrame, emittedBuffer, hrun, hfull, hskip, hnod]

/-- Witness for the amended claim C2 at a concrete steady-state tick. -/
theorem claimC2_witness :
    (emittedBuffer (tick c2State 1 true).2).map
        (fun b => (b.pts, b.discontinuity)) = some (c2State.pts, false)
    ∧ (tick c2State 1 true).1.pts
        = cmTimeAdd c2State.pts (frameDuration c2State) :=
  claimC2_amended c2State 1 rfl
    (by norm_num [fullness, c2State, baseState])
    (by norm_num [candidatePts, cmTimeMake, c2State, baseState])
    (by
      norm_num [resyncNeeded, c2State, baseState, candidatePts, cmTimeMake,
        cmTimeGetSeconds, cmTimeSub, driftThreshold]
      simp)

/-- Counterexample to claim C3 as stated: after a successful tick the stored
last pts is not the emitted pts — the store was advanced one frame duration
past it (emitted 1 second, stored 11/10 seconds). -/
theorem claimC3_counterexample :
    (emittedBuffer (tick baseState 1000000000 true).2).map (fun b => b.pts)
      = some (some 1)
    ∧ (tick baseState 1000000000 true).1.pts = some (11 / 10)
    ∧ (tick baseState 1000000000 true).1.pts ≠ (some (1 : ℚ) : CMTime) := by
  refine ⟨?_, ?_, ?_⟩ <;>
    norm_num [tick, sendFrame, baseState, fullness, candidatePts, cmTimeMake,
      resyncNeeded, cmTimeGetSeconds, cmTimeSub, driftThreshold, cmTimeAdd,
      frameDuration, truncToInt, emittedBuffer] <;>
    (simp; try norm_num)

/-- Claim C3, amended: after every successful (non-skipped, non-dropped)
tick the sequence counter has incremented by exactly 1, and the stored last
pts equals the emitted entry's pts plus one frame duration (not the emitted
pts itself). -/
theorem claimC3_amended (s : StreamState) (h : Nat)
    (hrun : s.running = true)
    (hfull : ¬ 1 ≤ fullness s)
    (hskip : candidatePts h ≠ s.pts) :
    (tick s h true).1.sequence = s.sequence + 1
    ∧ (emittedBuffer (tick s h true).2).map
        (fun b => cmTimeAdd b.pts b.duration) = some ((tick s h true).1.pts) := by
  cases hres : resyncNeeded s h <;>
    simp [tick, sendFrame, emittedBuffer, hrun, hfull, hskip, hres]

/-- Witness for the amended claim C3 at a concrete successful tick. -/
theorem claimC3_witness :
    (tick baseState 1000000000 true).1.sequence = baseState.sequence + 1
    ∧ (emittedBuffer (tick baseState 1000000000 true).2).map
        (fun b => cmTimeAdd b.pts b.duration)
      = some ((tick baseState 1000000000 true).1.pts) :=
  claimC3_amended baseState 1000000000 rfl
    (by norm_num [fullness, baseState])
    (by simp [candidatePts, cmTimeMake, baseState])

/-- Appending an entry related to every element of an ordered list keeps the
list ordered. -/
theorem chain'_append_single {R : SampleBuffer → SampleBuffer → Prop}
    (l : List SampleBuffer) (b : SampleBuffer)
    (hl : List.Chain' R l) (hb : ∀ x ∈ l, R x b) :
    List.Chain' R (l ++ [b]) := by
  refine List.Chain'.append hl (List.chain'_singleton b) ?_
  intro x hx y hy
  have hxl : x ∈ l := by
    rcases List.mem_getLast?_eq_getLast hx with ⟨h, rfl⟩
    exact List.getLast_mem h
  have hyb : b = y := by simpa using hy
  subst hyb
  exact hb x hxl

/-- Each sendFrame call preserves the queue ordering invariant: the only
insertion appends an entry carrying the current sequence counter, which
exceeds every sequence number already queued. -/
theorem sendFrame_queueSeqOrdered (s : StreamState) (f : VideoFrame)
    (h : Nat) (a : Bool) (hs : queueSeqOrdered s) :
    queueSeqOrdered (sendFrame s f h a).1 := by
  rcases hs with ⟨hchain, hbound⟩
  simp only [sendFrame]
  split_ifs <;>
    first
      | exact ⟨hchain, hbound⟩
      | (refine ⟨chain'_append_single _ _ hchain fun x hx => hbound x hx,
            fun b' hb' => ?_⟩
         rcases List.mem_append.1 hb' with h' | h'
         · exact Nat.lt_succ_of_lt (hbound b' h')
         · simp only [List.mem_singleton] at h'
           subst h'
           exact Nat.lt_succ_self _)

/-- Ticks preserve the queue ordering invariant. -/
theorem tick_queueSeqOrdered (s : StreamState) (h : Nat) (a : Bool)
    (hs : queueSeqOrdered s) : queueSeqOrdered (tick s h a).1 := by
  simp only [tick]
  split_ifs
  · exact sendFrame_queueSeqOrdered s s.currentFrame h a hs
  · exact hs

/-- Whole runs preserve the queue ordering invariant. -/
theorem runTicks_queueSeqOrdered (ticks : List (Nat × Bool))
    (s : StreamState) (hs : queueSeqOrdered s) :
    queueSeqOrdered (runTicks s ticks) := by
  induction ticks generalizing s with
  | nil => exact hs
  | cons t rest ih =>
      rcases t with ⟨h, a⟩
      exact ih (tick s h a).1 (tick_queueSeqOrdered s h a hs)

/-- Claim C4, amended: over every run of the stream the enqueued entries are
strictly ordered by sequence number; their pts values, however, are not
monotone — a resync tick may emit a pts smaller than (or, with a frame-rate
change, equal to) an earlier entry's pts. -/
theorem claimC4_amended (s : StreamState) (ticks : List (Nat × Bool))
    (hq : s.queue = []) :
    List.Chain' (fun a b : SampleBuffer => a.sequence < b.sequence)
      (runTicks s ticks).queue :=
  (runTicks_queueSeqOrdered ticks s
    (by simp [queueSeqOrdered, hq])).1

/-- Witness for the amended claim C4 on a concrete two-tick run. -/
theorem claimC4_witness :
    List.Chain' (fun a b : SampleBuffer => a.sequence < b.sequence)
      (runTicks baseState [(1000000000, true), (1, true)]).queue :=
  claimC4_amended baseState [(1000000000, true), (1, true)] rfl

/-- Counterexample to claim C4 as stated: a two-tick run from a fresh stream
in which the host clock reading moves backward enqueues entries whose pts
values decrease (1 second, then 10^-9 seconds) — both ticks resync, and the
second resync emits a pts below the first entry's pts, so enqueued pts values
are not monotonically non-decreasing. -/
theorem claimC4_counterexample :
    (runTicks baseState [(1000000000, true), (1, true)]).queue.map
        (fun b => (b.sequence, b.pts))
      = [(0, some 1), (1, some (1 / 1000000000))]
    ∧ ((1 : ℚ) / 1000000000) < 1 := by
  refine ⟨?_, by norm_num⟩
  norm_num [runTicks, tick, sendFrame, baseState, fullness, candidatePts,
    cmTimeMake, resyncNeeded, cmTimeGetSeconds, cmTimeSub, driftThreshold,
    cmTimeAdd, frameDuration, truncToInt]
  simp
  norm_num

/-- A second video format, used to exhibit a stale test-frame cache. -/
def fmtB : VideoFormat :=
  { fourcc := 2, width := 8, height := 8, frameRates := [30] }

/-- Counterexample to claim C9 as stated: setFormat stores the new format but
leaves m_testFrameAdapted untouched, so after the call the cached test-frame
output differs from what recomputing it under the new settings produces — the
cache does not reflect the current format. -/
theorem claimC9_counterexample :
    (setFormat baseState fmtB).fmt = fmtB
    ∧ (setFormat baseState fmtB).testFrameAdapted = baseState.testFrameAdapted
    ∧ (setFormat baseState fmtB).testFrameAdapted
        ≠ (updateTestFrame (setFormat baseState fmtB)).testFrameAdapted := by
  refine ⟨rfl, rfl, ?_⟩
  simp [setFormat, setFrameRate, updateTestFrame, transformFrame, baseState,
    fmtB]

/-- Claim C9, amended: setMirror, setScaling and setAspectRatio recompute the
cached test-frame output whenever they change their setting (and leave it
untouched when the new value equals the old); setFormat does not recompute
the cache at all — the cache is refreshed again only by Stream::start. -/
theorem claimC9_amended (s : StreamState) (hm vm : Bool) (sc : Scaling)
    (ar : AspectRatio) (fmt2 : VideoFormat) :
    (setMirror s hm vm).testFrameAdapted =
      (if s.horizontalMirror = hm ∧ s.verticalMirror = vm
       then s.testFrameAdapted
       else transformFrame s.testFrame hm vm s.fmt s.scaling s.aspect)
    ∧ (setScaling s sc).testFrameAdapted =
      (if s.scaling = sc then s.testFrameAdapted
       else transformFrame s.testFrame s.horizontalMirror s.verticalMirror
              s.fmt sc s.aspect)
    ∧ (setAspectRatio s ar).testFrameAdapted =
      (if s.aspect = ar then s.testFrameAdapted
       else transformFrame s.testFrame s.horizontalMirror s.verticalMirror
              s.fmt s.scaling ar)
    ∧ (setFormat s fmt2).testFrameAdapted = s.testFrameAdapted := by
  refine ⟨?_, ?_, ?_, ?_⟩
  · simp only [setMirror, updateTestFrame]
    split_ifs <;> simp
  · simp only [setScaling, updateTestFrame]
    split_ifs <;> simp
  · simp only [setAspectRatio, updateTestFrame]
    split_ifs <;> simp
  · rcases hfr : fmt2.frameRates with _ | ⟨r, rs⟩ <;>
      simp [setFormat, setFrameRate, hfr]

end AkVCam
